import Mathlib

/-!
Verification of the flow-agentkit-starter repository against its specification.

The development shallowly embeds the three source files:
- src/app/api/agent/prepare-agentkit.ts : agent bootstrap, key resolution,
  the custom flow action provider;
- src/app/hooks/useAgent.ts (useAgent / useMetaMask hooks) : chat state,
  MetaMask connection state machine, the messageAgent network bridge;
- src/app/page.tsx : the onSendMessage UI wrapper.

Effectful TypeScript is embedded as pure functions from the injected
environment/outcomes to results: asynchronous calls whose outcome the code
merely branches on (fetch, JSON-RPC requests, AgentKit.from) become explicit
parameters of type Except/Option, React setState sequences become either an
explicit effect trace (chat hook) or a state-to-state function (MetaMask
hook), and thrown JS exceptions become Except.error carrying the message.
JavaScript truthiness tests on strings and optional strings are modelled
exactly (undefined, null and the empty string are falsy).
-/

set_option autoImplicit false

namespace FlowAgentkit

/-- JavaScript truthiness of a possibly-absent string: `undefined`/`null`
and the empty string are falsy, every other string is truthy.  Used for
`process.env.PRIVATE_KEY`, `process.env.CDP_API_KEY_NAME` and
`process.env.CDP_API_KEY_PRIVATE_KEY` checks in prepare-agentkit.ts. -/
def jsTruthy : Option String → Bool
  | none => false
  | some s => !s.isEmpty

/-! ## Key/Wallet store (prepare-agentkit.ts, lines 146-159) -/

/-- State of the persisted wallet_data.txt file: absent, holding a JSON body
with a privateKey field, or malformed (JSON.parse throws on it). -/
inductive FileState
  | absent
  | stored (privateKey : String)
  | malformed
  deriving DecidableEq, Repr

/-- Embeds lines 146-159 of prepare-agentkit.ts: `let privateKey =
process.env.PRIVATE_KEY; if (!privateKey) ...`.  Resolution order: a truthy
environment value wins; else a stored file is read back; else a fresh key is
generated and written to the file.  A malformed file makes JSON.parse throw,
modelled as an error carrying the parse message.  Returns the resolved key
together with the file state after the call. -/
def resolvePrivateKey (env : Option String) (file : FileState) (fresh : String) :
    Except String (String × FileState) :=
  if jsTruthy env then Except.ok (env.getD "", file)
  else
    match file with
    | .stored k => Except.ok (k, .stored k)
    | .malformed => Except.error "SyntaxError: Unexpected token in JSON"
    | .absent => Except.ok (fresh, .stored fresh)

/-! ## Agent bootstrap (prepareAgentkitAndWalletProvider) -/

/-- The ambient environment of one call to prepareAgentkitAndWalletProvider:
whether window.ethereum is present, the relevant environment variables, the
persisted file state, the key generatePrivateKey would produce, and whether
AgentKit.from throws (carrying its message) or succeeds. -/
structure AgentEnv where
  isClient : Bool
  envPrivateKey : Option String
  file : FileState
  fresh : String
  cdpApiKeyName : Option String
  cdpApiKeyPrivateKey : Option String
  agentKitError : Option String
  deriving DecidableEq, Repr

/-- Result of the wallet-provider branch: the key the local provider was
built from (none on the browser/MetaMask branch) and the file state after
resolution. -/
structure WalletInfo where
  usedKey : Option String
  file : FileState
  deriving DecidableEq, Repr

/-- The action providers assembled at lines 172-188 of prepare-agentkit.ts:
walletActionProvider, the custom flow provider, erc20ActionProvider, and
cdpApiActionProvider exactly when both CDP credential variables are truthy. -/
def actionProviderNames (cdpName cdpKey : Option String) : List String :=
  ["wallet", "flow", "erc20"] ++
    (if jsTruthy cdpName && jsTruthy cdpKey then ["cdpApi"] else [])

/-- The body of the try block of prepareAgentkitAndWalletProvider (lines
129-195): select the wallet provider (browser branch when window.ethereum is
present, otherwise resolve a private key via the store), assemble the action
providers, then run AgentKit.from.  Errors keep their original messages
here; the surrounding catch is modelled separately. -/
def prepareBody (env : AgentEnv) : Except String (WalletInfo × List String) :=
  let walletStep : Except String WalletInfo :=
    if env.isClient then Except.ok ⟨none, env.file⟩
    else
      match resolvePrivateKey env.envPrivateKey env.file env.fresh with
      | .ok kf => Except.ok ⟨some kf.1, kf.2⟩
      | .error e => Except.error e
  match walletStep with
  | .error e => Except.error e
  | .ok w =>
    match env.agentKitError with
    | some e => Except.error e
    | none => Except.ok (w, actionProviderNames env.cdpApiKeyName env.cdpApiKeyPrivateKey)

/-- Embeds prepareAgentkitAndWalletProvider (lines 125-200): the whole body
runs inside one try/catch whose catch logs the error and throws
`new Error("Failed to initialize agent")`, discarding the original cause. -/
def prepareAgentkitAndWalletProvider (env : AgentEnv) :
    Except String (WalletInfo × List String) :=
  match prepareBody env with
  | .ok r => Except.ok r
  | .error _ => Except.error "Failed to initialize agent"

/-! ## The custom flow action provider (lines 83-113) -/

/-- The object literal returned by getFlowBalance.execute. -/
structure FlowBalance where
  balance : String
  deriving DecidableEq, Repr

/-- Embeds the execute function of getFlowBalance (lines 99-109): the try
body computes a 0x-prefixed copy of the address (a total string operation
that cannot throw) and returns the constant placeholder balance; the catch
branch is therefore dead code. -/
def getFlowBalanceExecute (address : String) : Except String FlowBalance :=
  let _address0x := if address.startsWith "0x" then address else "0x" ++ address
  Except.ok ⟨"10.0"⟩

/-! ## The request bridge client (messageAgent, useAgent.ts lines 14-28) -/

/-- The JSON body `AgentResponse` sent back by POST /api/agent: optional
response string, optional error string. -/
structure AgentResponse where
  response : Option String
  error : Option String
  deriving DecidableEq, Repr

/-- Outcome of the fetch in messageAgent: a parsed JSON body, or a network /
JSON-parse failure (which the catch block turns into null). -/
inductive FetchResult
  | ok (body : AgentResponse)
  | failed
  deriving DecidableEq, Repr

/-- Embeds messageAgent: on success it returns
`data.response ?? data.error ?? null`; on any thrown error it logs and
returns null.  JS null is modelled as none. -/
def messageAgent : FetchResult → Option String
  | .ok body => body.response.orElse (fun _ => body.error)
  | .failed => none

/-! ## Chat state hook (useAgent, lines 181-206) -/

/-- A conversation message: text plus sender tag. -/
inductive Sender
  | user
  | agent
  deriving DecidableEq, Repr

/-- One entry of the messages state of useAgent. -/
structure Message where
  text : String
  sender : Sender
  deriving DecidableEq, Repr

/-- The primitive effects sendMessage performs, in program order: a
setMessages append, a setIsThinking write, or the awaited network call. -/
inductive Effect
  | appendMessage (m : Message)
  | setThinking (b : Bool)
  | networkCall (input : String)
  deriving DecidableEq, Repr

/-- The state held by useAgent: the messages list and the isThinking flag. -/
structure ChatState where
  messages : List Message
  isThinking : Bool
  deriving DecidableEq, Repr

/-- How one effect acts on the hook state; setMessages is only ever called
with an append updater `prev => [...prev, m]`. -/
def applyEffect (st : ChatState) : Effect → ChatState
  | .appendMessage m => { st with messages := st.messages ++ [m] }
  | .setThinking b => { st with isThinking := b }
  | .networkCall _ => st

/-- Run a trace of effects from a state. -/
def runEffects (st : ChatState) (es : List Effect) : ChatState :=
  es.foldl applyEffect st

/-- Model of JavaScript String.prototype.trim as used by sendMessage and
onSendMessage: strip whitespace from both ends.  (It is written with list
operations rather than Lean's String.trim so that concrete instances reduce
inside the kernel.) -/
def jsTrim (s : String) : String :=
  String.mk (((s.data.dropWhile Char.isWhitespace).reverse.dropWhile
    Char.isWhitespace).reverse)

/-- Embeds sendMessage (lines 190-203): blank input (trim gives the empty
string, the only falsy string) returns immediately; otherwise append the
user message, set the flag, await messageAgent, append an agent message only
when the result is truthy (`if (responseMessage)` — non-null AND non-empty),
and clear the flag. -/
def sendMessage (input : String) (fetch : FetchResult) : List Effect :=
  if jsTrim input = "" then []
  else
    Effect.appendMessage ⟨input, .user⟩ :: Effect.setThinking true ::
      Effect.networkCall input ::
      ((match messageAgent fetch with
        | some s => if s = "" then [] else [Effect.appendMessage ⟨s, .agent⟩]
        | none => []) ++ [Effect.setThinking false])

/-- Embeds onSendMessage of page.tsx (lines 37-42): `if (!input.trim() ||
isThinking) return;` then delegates to sendMessage.  (It also clears the
input box, a piece of state outside the chat hook and outside the claims.) -/
def onSendMessage (input : String) (thinking : Bool) (fetch : FetchResult) :
    List Effect :=
  if jsTrim input = "" ∨ thinking = true then [] else sendMessage input fetch

/-- Is the effect an append to the messages state? -/
def Effect.isAppend : Effect → Bool
  | .appendMessage _ => true
  | _ => false

/-- Is the effect the awaited network call? -/
def Effect.isNetworkCall : Effect → Bool
  | .networkCall _ => true
  | _ => false

/-- The value written, when the effect is a setIsThinking write. -/
def Effect.thinkingWrite : Effect → Option Bool
  | .setThinking b => some b
  | _ => none

/-- The hook states observed at the moment each network call in the trace is
issued (before the call itself acts, though a call does not change state). -/
def statesAtNetworkCalls : ChatState → List Effect → List ChatState
  | _, [] => []
  | st, e :: es =>
    match e with
    | .networkCall _ => st :: statesAtNetworkCalls (applyEffect st e) es
    | _ => statesAtNetworkCalls (applyEffect st e) es

/-- The agent messages sendMessage appends after the await, as a function of
the messageAgent result: one entry when the result is a truthy (non-null,
non-empty) string, none otherwise.  Restates the post-await branch of
sendMessage to let theorems speak about the appended history. -/
def appendedAgentMessages (resp : Option String) : List Message :=
  match resp with
  | some s => if s = "" then [] else [⟨s, .agent⟩]
  | none => []

/-! ## MetaMask connection hook (useMetaMask, lines 40-160) -/

/-- The state held by useMetaMask. -/
structure MetaMaskState where
  account : Option String
  isConnected : Bool
  isConnecting : Bool
  error : Option String
  deriving DecidableEq, Repr

/-- Embeds the accountsChanged listener (lines 73-82): an empty account list
clears the account and the connected flag; a non-empty list stores the first
account and sets the flag. -/
def onAccountsChanged (st : MetaMaskState) (accounts : List String) : MetaMaskState :=
  match accounts with
  | [] => { st with account := none, isConnected := false }
  | a :: _ => { st with account := some a, isConnected := true }

/-- Outcomes of the three window.ethereum.request calls made by
connectMetaMask: eth_requestAccounts, wallet_addEthereumChain and
wallet_switchEthereumChain. -/
structure ConnectOutcomes where
  requestAccounts : Except String (List String)
  addChain : Except String Unit
  switchChain : Except String Unit

/-- Embeds connectMetaMask (lines 94-150).  Without MetaMask only an error
is set.  Otherwise: set isConnecting, clear error; a requestAccounts failure
hits the outer catch (error "Failed to connect to MetaMask"); an addChain
failure is swallowed by its inner catch (console.warn only); a switchChain
failure sets error "Failed to switch to Flow testnet" but execution
continues; a non-empty account list then sets account and isConnected; the
finally clause clears isConnecting. -/
def connectMetaMask (st : MetaMaskState) (mmAvailable : Bool) (o : ConnectOutcomes) :
    MetaMaskState :=
  if !mmAvailable then { st with error := some "MetaMask is not installed" }
  else
    let st1 := { st with isConnecting := true, error := none }
    match o.requestAccounts with
    | .error _ =>
      { st1 with error := some "Failed to connect to MetaMask", isConnecting := false }
    | .ok accounts =>
      let st2 :=
        match o.addChain with
        | .ok _ => st1
        | .error _ => st1
      let st3 :=
        match o.switchChain with
        | .ok _ => st2
        | .error _ => { st2 with error := some "Failed to switch to Flow testnet" }
      let st4 :=
        match accounts with
        | [] => st3
        | a :: _ => { st3 with account := some a, isConnected := true }
      { st4 with isConnecting := false }

/-! ## Theorems for the claims -/

/-- Claim C2: for every address string, getFlowBalance.execute returns the
constant placeholder balance 10.0, independent of the address, and never
errors. -/
theorem c2_flow_balance_constant (address : String) :
    getFlowBalanceExecute address = Except.ok ⟨"10.0"⟩ := rfl

/-- Claim C1: key resolution inside prepareAgentkitAndWalletProvider follows
the precedence env key, persisted file, fresh generation: a non-empty
environment key is used unchanged whatever the file holds (and the file is
not touched); with no env key and no file, the fresh key is generated, the
file afterwards stores it, and a second resolution against that file reads
back the identical key. -/
theorem c1_key_resolution (k fresh fresh2 : String) (file : FileState)
    (cdpN cdpK : Option String) (hk : k ≠ "") :
    prepareAgentkitAndWalletProvider ⟨false, some k, file, fresh, cdpN, cdpK, none⟩
      = Except.ok (⟨some k, file⟩, actionProviderNames cdpN cdpK)
  ∧ prepareAgentkitAndWalletProvider ⟨false, none, .absent, fresh, cdpN, cdpK, none⟩
      = Except.ok (⟨some fresh, .stored fresh⟩, actionProviderNames cdpN cdpK)
  ∧ prepareAgentkitAndWalletProvider ⟨false, none, .stored fresh, fresh2, cdpN, cdpK, none⟩
      = Except.ok (⟨some fresh, .stored fresh⟩, actionProviderNames cdpN cdpK) := by
  have hE : k.isEmpty = false := by
    cases hE : k.isEmpty with
    | false => rfl
    | true => exact absurd ((String.isEmpty_iff k).mp hE) hk
  refine ⟨?_, ?_, ?_⟩ <;>
    simp [prepareAgentkitAndWalletProvider, prepareBody, resolvePrivateKey, jsTruthy, hE]

/-- Witness for c1_key_resolution at concrete keys. -/
theorem c1_key_resolution_witness :
    "0xabc" ≠ ""
  ∧ (prepareAgentkitAndWalletProvider
        ⟨false, some "0xabc", .stored "0xold", "0xf1", none, none, none⟩
      = Except.ok (⟨some "0xabc", .stored "0xold"⟩, actionProviderNames none none)
    ∧ prepareAgentkitAndWalletProvider ⟨false, none, .absent, "0xf1", none, none, none⟩
      = Except.ok (⟨some "0xf1", .stored "0xf1"⟩, actionProviderNames none none)
    ∧ prepareAgentkitAndWalletProvider ⟨false, none, .stored "0xf1", "0xf2", none, none, none⟩
      = Except.ok (⟨some "0xf1", .stored "0xf1"⟩, actionProviderNames none none)) :=
  ⟨by decide, c1_key_resolution "0xabc" "0xf1" "0xf2" (.stored "0xold") none none (by decide)⟩

/-- Claim C3: whenever any sub-step of the try body fails, with whatever
original message, prepareAgentkitAndWalletProvider surfaces the single
generic error "Failed to initialize agent"; the surfaced error is this
constant, so the original cause is not present in it. -/
theorem c3_generic_init_error (env : AgentEnv) (e : String)
    (h : prepareBody env = Except.error e) :
    prepareAgentkitAndWalletProvider env = Except.error "Failed to initialize agent" := by
  simp [prepareAgentkitAndWalletProvider, h]

/-- Witness for c3_generic_init_error: AgentKit.from throwing "boom". -/
theorem c3_generic_init_error_witness :
    prepareBody ⟨false, none, .absent, "0xf1", none, none, some "boom"⟩
      = Except.error "boom"
  ∧ prepareAgentkitAndWalletProvider ⟨false, none, .absent, "0xf1", none, none, some "boom"⟩
      = Except.error "Failed to initialize agent" :=
  ⟨rfl, c3_generic_init_error _ "boom" rfl⟩

/-- Claim C7 fails as stated: a malformed persisted file does raise a parse
failure inside key resolution, but that failure is NOT left to propagate
uncaught — the catch wrapping the whole function body (lines 196-199)
converts it into the generic "Failed to initialize agent" error, as this
concrete run shows. -/
theorem c7_counterexample :
    prepareBody ⟨false, none, .malformed, "0xf1", none, none, none⟩
      = Except.error "SyntaxError: Unexpected token in JSON"
  ∧ prepareAgentkitAndWalletProvider ⟨false, none, .malformed, "0xf1", none, none, none⟩
      = Except.error "Failed to initialize agent" := by
  refine ⟨rfl, rfl⟩

/-- Claim C7 amended: when the persisted file is malformed and no truthy
environment key short-circuits the read, the parse failure is caught by the
function-wide catch and surfaced as the same generic initialization error as
any other sub-step failure (it does not propagate uncaught and its parse
error shape is not preserved). -/
theorem c7_amended (env : Option String) (fresh : String)
    (cdpN cdpK agErr : Option String) (h : jsTruthy env = false) :
    prepareAgentkitAndWalletProvider ⟨false, env, .malformed, fresh, cdpN, cdpK, agErr⟩
      = Except.error "Failed to initialize agent" := by
  simp [prepareAgentkitAndWalletProvider, prepareBody, resolvePrivateKey, h]

/-- Witness for c7_amended with the environment key absent. -/
theorem c7_amended_witness :
    jsTruthy none = false
  ∧ prepareAgentkitAndWalletProvider ⟨false, none, .malformed, "0xf1", none, none, none⟩
      = Except.error "Failed to initialize agent" :=
  ⟨by decide, c7_amended none "0xf1" none none none (by decide)⟩

/-- Claim C8: an accountsChanged event with a zero-length account list moves
any prior state to disconnected with the account unset; a non-empty list
stores the first account and sets isConnected. -/
theorem c8_accounts_changed (st : MetaMaskState) (a : String) (rest : List String) :
    (onAccountsChanged st []).account = none
  ∧ (onAccountsChanged st []).isConnected = false
  ∧ (onAccountsChanged st (a :: rest)).account = some a
  ∧ (onAccountsChanged st (a :: rest)).isConnected = true := by
  refine ⟨rfl, rfl, rfl, rfl⟩

/-! ### Helper lemmas about effect traces (shared by several claims) -/

theorem runEffects_nil (st : ChatState) : runEffects st [] = st := rfl

theorem runEffects_cons (st : ChatState) (e : Effect) (es : List Effect) :
    runEffects st (e :: es) = runEffects (applyEffect st e) es := rfl

theorem runEffects_app (st : ChatState) (es fs : List Effect) :
    runEffects st (es ++ fs) = runEffects (runEffects st es) fs := by
  simp [runEffects, List.foldl_append]

/-- Running a block of appendMessage effects appends exactly those messages
and leaves the flag alone. -/
theorem runEffects_appendMessages (s : ChatState) (ms : List Message) :
    runEffects s (ms.map Effect.appendMessage) = ⟨s.messages ++ ms, s.isThinking⟩ := by
  induction ms generalizing s with
  | nil => simp [runEffects]
  | cons m ms ih =>
    rw [List.map_cons, runEffects_cons, ih]
    simp [applyEffect]

/-- A block of appendMessage effects contains no isThinking write. -/
theorem thinkingWrite_of_appends (ms : List Message) :
    (ms.map Effect.appendMessage).filterMap Effect.thinkingWrite = [] := by
  induction ms with
  | nil => rfl
  | cons m ms ih => simp [Effect.thinkingWrite, ih]

/-- A block of appendMessage effects followed by an isThinking write issues
no network call. -/
theorem statesAtNetworkCalls_of_appends (s : ChatState) (ms : List Message) (b : Bool) :
    statesAtNetworkCalls s (ms.map Effect.appendMessage ++ [Effect.setThinking b]) = [] := by
  induction ms generalizing s with
  | nil => rfl
  | cons m ms ih => simpa [statesAtNetworkCalls] using ih _

/-- Unfolding of sendMessage for non-blank input: the trace is the user
append, the flag set, the network call, the (possibly empty) agent append,
and the flag clear, in that order. -/
theorem sendMessage_eq_of_not_blank (input : String) (fetch : FetchResult)
    (h : jsTrim input ≠ "") :
    sendMessage input fetch =
      Effect.appendMessage ⟨input, .user⟩ :: Effect.setThinking true ::
        Effect.networkCall input ::
        ((appendedAgentMessages (messageAgent fetch)).map Effect.appendMessage
          ++ [Effect.setThinking false]) := by
  rw [sendMessage, if_neg h]
  cases messageAgent fetch with
  | none => rfl
  | some s =>
    by_cases hs : s = "" <;> simp [appendedAgentMessages, hs]

/-- The history after a non-blank sendMessage call: the old history, then
the user entry, then the truthy-response agent entries. -/
theorem sendMessage_messages (input : String) (fetch : FetchResult) (st : ChatState)
    (h : jsTrim input ≠ "") :
    (runEffects st (sendMessage input fetch)).messages
      = st.messages ++ Message.mk input Sender.user ::
          appendedAgentMessages (messageAgent fetch) := by
  rw [sendMessage_eq_of_not_blank input fetch h, runEffects_cons, runEffects_cons,
    runEffects_cons, runEffects_app, runEffects_appendMessages, runEffects_cons,
    runEffects_nil]
  simp [applyEffect]

/-! ### Chat-hook claims -/

/-- Claim C4 fails as stated: with the server body carrying the empty
response string, messageAgent returns a NON-NULL response, yet sendMessage
appends no agent entry, because `if (responseMessage)` tests JS truthiness
and the empty string is falsy. -/
theorem c4_counterexample :
    messageAgent (FetchResult.ok ⟨some "", none⟩) ≠ none
  ∧ (runEffects ⟨[], false⟩ (sendMessage "hi" (FetchResult.ok ⟨some "", none⟩))).messages
      = [⟨"hi", Sender.user⟩] := by
  refine ⟨by decide, by decide⟩

/-- Claim C4 amended: for every non-blank input, sendMessage appends exactly
one user-sender entry before the network call; after the call it appends
exactly one agent-sender entry when the obtained response is non-null AND
non-empty, and nothing when the response is null or the empty string; the
existing entries are preserved in order. -/
theorem c4_amended (input : String) (fetch : FetchResult) (st : ChatState)
    (h : jsTrim input ≠ "") :
    ((sendMessage input fetch).takeWhile (fun e => ! e.isNetworkCall)).filter Effect.isAppend
      = [Effect.appendMessage ⟨input, Sender.user⟩]
  ∧ (runEffects st (sendMessage input fetch)).messages
      = st.messages ++ Message.mk input Sender.user ::
          appendedAgentMessages (messageAgent fetch) := by
  refine ⟨?_, sendMessage_messages input fetch st h⟩
  rw [sendMessage_eq_of_not_blank input fetch h]
  rfl

/-- Witness for c4_amended at a concrete non-blank input and a concrete
successful response. -/
theorem c4_amended_witness :
    jsTrim "hi" ≠ ""
  ∧ (((sendMessage "hi" (FetchResult.ok ⟨some "ok", none⟩)).takeWhile
        (fun e => ! e.isNetworkCall)).filter Effect.isAppend
      = [Effect.appendMessage ⟨"hi", Sender.user⟩]
    ∧ (runEffects ⟨[], false⟩ (sendMessage "hi" (FetchResult.ok ⟨some "ok", none⟩))).messages
      = [] ++ Message.mk "hi" Sender.user ::
          appendedAgentMessages (messageAgent (FetchResult.ok ⟨some "ok", none⟩))) :=
  ⟨by decide, c4_amended "hi" (FetchResult.ok ⟨some "ok", none⟩) ⟨[], false⟩ (by decide)⟩

/-- Claim C5: for a non-blank input, from a not-in-flight state, the only
isThinking writes sendMessage makes are true then false, the state at the
network call has the flag set, and the state after the call resolves has it
cleared — whatever the fetch outcome. -/
theorem c5_thinking_flag (input : String) (fetch : FetchResult) (st : ChatState)
    (h : jsTrim input ≠ "") (_h0 : st.isThinking = false) :
    (sendMessage input fetch).filterMap Effect.thinkingWrite = [true, false]
  ∧ (statesAtNetworkCalls st (sendMessage input fetch)).map ChatState.isThinking = [true]
  ∧ (runEffects st (sendMessage input fetch)).isThinking = false := by
  rw [sendMessage_eq_of_not_blank input fetch h]
  refine ⟨?_, ?_, ?_⟩
  · simp [List.filterMap_cons, Effect.thinkingWrite, List.filterMap_append,
      thinkingWrite_of_appends]
  · simp [statesAtNetworkCalls, applyEffect, statesAtNetworkCalls_of_appends]
  · rw [runEffects_cons, runEffects_cons, runEffects_cons, runEffects_app,
      runEffects_appendMessages, runEffects_cons, runEffects_nil]
    rfl

/-- Witness for c5_thinking_flag at a concrete input with a failing fetch. -/
theorem c5_thinking_flag_witness :
    jsTrim "hi" ≠ ""
  ∧ (⟨[], false⟩ : ChatState).isThinking = false
  ∧ ((sendMessage "hi" FetchResult.failed).filterMap Effect.thinkingWrite = [true, false]
    ∧ (statesAtNetworkCalls ⟨[], false⟩ (sendMessage "hi" FetchResult.failed)).map
        ChatState.isThinking = [true]
    ∧ (runEffects ⟨[], false⟩ (sendMessage "hi" FetchResult.failed)).isThinking = false) :=
  ⟨by decide, rfl, c5_thinking_flag "hi" FetchResult.failed ⟨[], false⟩ (by decide) rfl⟩

/-- Claim C6 fails as stated: sendMessage itself never reads the in-flight
flag — called directly while isThinking is true, with a non-blank input, it
still appends to the history and still issues the network call. -/
theorem c6_counterexample :
    (⟨[], true⟩ : ChatState).isThinking = true
  ∧ (runEffects ⟨[], true⟩ (sendMessage "hi" (FetchResult.ok ⟨some "ok", none⟩))).messages
      = [⟨"hi", Sender.user⟩, ⟨"ok", Sender.agent⟩]
  ∧ (sendMessage "hi" (FetchResult.ok ⟨some "ok", none⟩)).any Effect.isNetworkCall = true := by
  refine ⟨rfl, by decide, by decide⟩

/-- Claim C6 amended: blank input makes sendMessage itself a no-op; the
in-flight guard lives one layer up, in onSendMessage of page.tsx, which
ignores the call (no history change, no network call, no flag change) when
the input is blank or isThinking is true. -/
theorem c6_amended (input : String) (thinking : Bool) (fetch : FetchResult) (st : ChatState)
    (h : jsTrim input = "" ∨ thinking = true) :
    onSendMessage input thinking fetch = []
  ∧ runEffects st (onSendMessage input thinking fetch) = st
  ∧ (jsTrim input = "" → sendMessage input fetch = []) := by
  have h1 : onSendMessage input thinking fetch = [] := by
    rw [onSendMessage, if_pos h]
  refine ⟨h1, ?_, fun hb => by rw [sendMessage, if_pos hb]⟩
  rw [h1]
  rfl

/-- Witness for c6_amended with blank input and a request in flight. -/
theorem c6_amended_witness :
    (jsTrim "  " = "" ∨ true = true)
  ∧ (onSendMessage "  " true FetchResult.failed = []
    ∧ runEffects ⟨[], true⟩ (onSendMessage "  " true FetchResult.failed) = ⟨[], true⟩
    ∧ (jsTrim "  " = "" → sendMessage "  " FetchResult.failed = [])) :=
  ⟨by decide, c6_amended "  " true FetchResult.failed ⟨[], true⟩ (by decide)⟩

/-- Claim C9: when eth_requestAccounts yields a non-empty account list but
wallet_switchEthereumChain fails, connectMetaMask still ends with the first
account stored and isConnected true, while the error is the non-null switch
failure message; an addChain failure alone is swallowed and leaves the error
cleared. -/
theorem c9_connect_switch_failure (st : MetaMaskState) (a : String) (rest : List String)
    (addR : Except String Unit) (m e : String) :
    (connectMetaMask st true ⟨Except.ok (a :: rest), addR, Except.error m⟩).account = some a
  ∧ (connectMetaMask st true ⟨Except.ok (a :: rest), addR, Except.error m⟩).isConnected = true
  ∧ (connectMetaMask st true ⟨Except.ok (a :: rest), addR, Except.error m⟩).error
      = some "Failed to switch to Flow testnet"
  ∧ (connectMetaMask st true ⟨Except.ok (a :: rest), Except.error e, Except.ok ()⟩).account
      = some a
  ∧ (connectMetaMask st true ⟨Except.ok (a :: rest), Except.error e, Except.ok ()⟩).isConnected
      = true
  ∧ (connectMetaMask st true ⟨Except.ok (a :: rest), Except.error e, Except.ok ()⟩).error
      = none := by
  cases addR <;> simp [connectMetaMask]

/-- Claim C10 fails as stated: a server body with no response string and the
EMPTY error string makes messageAgent return that error string, yet
sendMessage appends nothing, because the append is guarded by JS truthiness
and the empty string is falsy. -/
theorem c10_counterexample :
    messageAgent (FetchResult.ok ⟨none, some ""⟩) = some ""
  ∧ (runEffects ⟨[], false⟩ (sendMessage "hi" (FetchResult.ok ⟨none, some ""⟩))).messages
      = [⟨"hi", Sender.user⟩] := by
  refine ⟨rfl, by decide⟩

/-- Claim C10 amended: when the server body carries no response string and a
NON-EMPTY error string, messageAgent hands that error string on and
sendMessage appends it to the history as an agent-sender entry — the client
does not distinguish a server error payload from a normal agent reply. -/
theorem c10_amended (input e : String) (st : ChatState)
    (hin : jsTrim input ≠ "") (he : e ≠ "") :
    messageAgent (FetchResult.ok ⟨none, some e⟩) = some e
  ∧ (runEffects st (sendMessage input (FetchResult.ok ⟨none, some e⟩))).messages
      = st.messages ++ [⟨input, Sender.user⟩, ⟨e, Sender.agent⟩] := by
  refine ⟨rfl, ?_⟩
  rw [sendMessage_messages input (FetchResult.ok ⟨none, some e⟩) st hin]
  simp [messageAgent, appendedAgentMessages, he, Option.orElse]

/-- Witness for c10_amended at a concrete input and error payload. -/
theorem c10_amended_witness :
    jsTrim "hi" ≠ "" ∧ "agent failure" ≠ ""
  ∧ (messageAgent (FetchResult.ok ⟨none, some "agent failure"⟩) = some "agent failure"
    ∧ (runEffects ⟨[], false⟩
          (sendMessage "hi" (FetchResult.ok ⟨none, some "agent failure"⟩))).messages
      = [] ++ [⟨"hi", Sender.user⟩, ⟨"agent failure", Sender.agent⟩]) :=
  ⟨by decide, by decide, c10_amended "hi" "agent failure" ⟨[], false⟩ (by decide) (by decide)⟩

end FlowAgentkit
